import Mathlib

/-!
# Verification of the BLE connection-lifecycle state machine

Shallow embedding of `app/bluetooth/state-machine/ble-machine.ts`
(xstate machine `bleMachine`) and the actor
`app/bluetooth/state-machine/actors/disconnectFromDevice` from the
rn-ble-xstate-demo repository.

The machine is embedded as an explicit step function on a state record
`MachState` holding the current (leaf) state-chart node, the machine
context `BleContext`, and the value persisted in the Device Store
(AsyncStorage under `ble_device_id`).  Completions of invoked promise
actors are modelled as events tagged with the state node whose `invoke`
produced them; following xstate semantics, a completion is applied only
while the machine is still in the invoking node (invoked actors are
stopped on state exit, so their done/error events are discarded
otherwise).
-/

namespace BleDemo

/-- A discovered peripheral, as delivered by `onDiscoverPeripheral`
(relevant fields of react-native-ble-manager's `Peripheral`). -/
structure Peripheral where
  id : String
  name : Option String
  rssi : Int
  deriving DecidableEq, Repr

/-- The machine context `BleContext` of `ble-machine.ts`. -/
structure BleContext where
  deviceId : Option String
  deviceName : Option String
  buttonState : Option Bool
  ledState : Bool
  error : Option String
  discoveredDevices : List Peripheral
  deriving DecidableEq, Repr

/-- Leaf nodes of the hierarchical state chart of `bleMachine`:
`idle`, `init.checkingBle`, `init.loadingStoredDevice`, `scanning`,
`connecting.stoppingPreviousScan`, `connecting.connectingToDevice`,
`connecting.savingDeviceId`, `connected.discoveringServices`,
`connected.ready`, `connected.togglingLed`, `connected.readingButton`
and `disconnecting`. -/
inductive Phase
  | idle
  | initCheckingBle
  | initLoadingStoredDevice
  | scanning
  | connectingStoppingPreviousScan
  | connectingConnectingToDevice
  | connectingSavingDeviceId
  | connectedDiscoveringServices
  | connectedReady
  | connectedTogglingLed
  | connectedReadingButton
  | disconnecting
  deriving DecidableEq, Repr

/-- The outermost state name, as computed by `selectCurrentState`
(first key of the hierarchical state value). -/
def Phase.outer : Phase → String
  | .idle => "idle"
  | .initCheckingBle => "init"
  | .initLoadingStoredDevice => "init"
  | .scanning => "scanning"
  | .connectingStoppingPreviousScan => "connecting"
  | .connectingConnectingToDevice => "connecting"
  | .connectingSavingDeviceId => "connecting"
  | .connectedDiscoveringServices => "connected"
  | .connectedReady => "connected"
  | .connectedTogglingLed => "connected"
  | .connectedReadingButton => "connected"
  | .disconnecting => "disconnecting"

/-- True exactly on the `connected.*` sub-states. -/
def Phase.isConnectedSub : Phase → Bool
  | .connectedDiscoveringServices => true
  | .connectedReady => true
  | .connectedTogglingLed => true
  | .connectedReadingButton => true
  | _ => false

/-- Completion (done / error) of an invoked promise actor.  Error
payloads carry the optional `message` of the thrown `Error`
(`none` models a missing / undefined message). -/
inductive Completion
  | checkBleDone
  | checkBleError (msg : Option String)
  | loadStoredDone (output : Option String)
  | loadStoredError (msg : Option String)
  | scanDone
  | scanError (msg : Option String)
  | stopScanDone
  | stopScanError (msg : Option String)
  | connectDone
  | connectError (msg : Option String)
  | saveDone
  | saveError (msg : Option String)
  | discoverDone (buttonState : Bool)
  | discoverError (msg : Option String)
  | writeDone
  | writeError (msg : Option String)
  | readDone (value : Bool)
  | readError (msg : Option String)
  | disconnectDone
  | disconnectError (msg : Option String)
  deriving DecidableEq, Repr

/-- The state node whose `invoke` produces a given completion. -/
def Completion.origin : Completion → Phase
  | .checkBleDone => .initCheckingBle
  | .checkBleError _ => .initCheckingBle
  | .loadStoredDone _ => .initLoadingStoredDevice
  | .loadStoredError _ => .initLoadingStoredDevice
  | .scanDone => .scanning
  | .scanError _ => .scanning
  | .stopScanDone => .connectingStoppingPreviousScan
  | .stopScanError _ => .connectingStoppingPreviousScan
  | .connectDone => .connectingConnectingToDevice
  | .connectError _ => .connectingConnectingToDevice
  | .saveDone => .connectingSavingDeviceId
  | .saveError _ => .connectingSavingDeviceId
  | .discoverDone _ => .connectedDiscoveringServices
  | .discoverError _ => .connectedDiscoveringServices
  | .writeDone => .connectedTogglingLed
  | .writeError _ => .connectedTogglingLed
  | .readDone _ => .connectedReadingButton
  | .readError _ => .connectedReadingButton
  | .disconnectDone => .disconnecting
  | .disconnectError _ => .disconnecting

/-- Events processed by the machine: the external `BleEvent` union of
`ble-machine.ts` plus invoked-actor completions. -/
inductive BleEvent
  | start
  | scanReq
  | stopScanReq
  | selectDevice (deviceId : String) (deviceName : Option String)
  | disconnectReq
  | retry
  | deviceDiscovered (peripheral : Peripheral)
  | buttonStateChanged (value : Bool)
  | toggleLed
  | readButtonReq
  | clearStoredDevice
  | comp (c : Completion)
  deriving DecidableEq, Repr

/-- JavaScript `m?.message || fallback`: an absent or empty message
falls back to the default string. -/
def errMsg (m : Option String) (fallback : String) : String :=
  match m with
  | none => fallback
  | some s => if s = "" then fallback else s

/-- JavaScript `params.deviceName || null`: absent or empty names
become `null`. -/
def optName (n : Option String) : Option String :=
  match n with
  | none => none
  | some s => if s = "" then none else some s

/-- Action `clearError`. -/
def clearError (c : BleContext) : BleContext := { c with error := none }

/-- Action `setError`. -/
def setError (c : BleContext) (message : String) : BleContext :=
  { c with error := some message }

/-- Action `setDeviceId` (sets `deviceName := params.deviceName || null`). -/
def setDeviceId (c : BleContext) (deviceId : String) (deviceName : Option String) :
    BleContext :=
  { c with deviceId := some deviceId, deviceName := optName deviceName }

/-- Action `clearDeviceId`. -/
def clearDeviceId (c : BleContext) : BleContext :=
  { c with deviceId := none, deviceName := none }

/-- Action `setButtonState`. -/
def setButtonState (c : BleContext) (value : Bool) : BleContext :=
  { c with buttonState := some value }

/-- Action `toggleLedState`. -/
def toggleLedState (c : BleContext) : BleContext :=
  { c with ledState := !c.ledState }

/-- Action `addDiscoveredDevice`: replace in place when the id was
already seen, append otherwise. -/
def addDiscoveredDevice (devs : List Peripheral) (p : Peripheral) : List Peripheral :=
  if devs.any (fun d => d.id == p.id) then
    devs.map (fun d => if d.id == p.id then p else d)
  else
    devs ++ [p]

/-- Action `clearDiscoveredDevices`. -/
def clearDiscoveredDevices (c : BleContext) : BleContext :=
  { c with discoveredDevices := [] }

/-- Action `resetForRetry`. -/
def resetForRetry (c : BleContext) : BleContext :=
  { c with error := none, buttonState := none }

/-- Machine state: current chart node, context, and the Device Store
content (AsyncStorage value under `ble_device_id`). -/
structure MachState where
  phase : Phase
  context : BleContext
  store : Option String
  deriving DecidableEq, Repr

/-- The initial context of `createMachine`. -/
def initialContext : BleContext :=
  { deviceId := none, deviceName := none, buttonState := none,
    ledState := false, error := none, discoveredDevices := [] }

/-- Initial machine state: `idle`, empty context, empty store. -/
def initialState : MachState :=
  { phase := .idle, context := initialContext, store := none }

/-- One transition of `bleMachine`.  Transcribes the `createMachine`
config: per-node `on` handlers, `invoke` `onDone`/`onError` branches
(applied only in the invoking node), entry actions (`scanning`'s
`clearDiscoveredDevices`, `togglingLed`'s `toggleLedState`), the
root-level `CLEAR_STORED_DEVICE` handler, and the `saveDeviceId` /
`AsyncStorage.removeItem` effects on the store.  Unhandled events are
ignored. -/
def step (s : MachState) (e : BleEvent) : MachState :=
  match e with
  | .clearStoredDevice =>
      { s with context := clearDeviceId s.context, store := none }
  | _ =>
    match s.phase, e with
    | .idle, .start =>
        { s with phase := .initCheckingBle, context := clearError s.context }
    | .initCheckingBle, .comp .checkBleDone =>
        { s with phase := .initLoadingStoredDevice }
    | .initCheckingBle, .comp (.checkBleError m) =>
        { s with phase := .idle,
                 context := setError s.context (errMsg m "BLE initialization failed") }
    | .initLoadingStoredDevice, .comp (.loadStoredDone (some deviceId)) =>
        { s with phase := .connectingStoppingPreviousScan,
                 context := setDeviceId s.context deviceId none }
    | .initLoadingStoredDevice, .comp (.loadStoredDone none) =>
        { s with phase := .scanning,
                 context := clearDiscoveredDevices s.context }
    | .initLoadingStoredDevice, .comp (.loadStoredError _) =>
        { s with phase := .scanning,
                 context := clearDiscoveredDevices s.context }
    | .scanning, .comp (.scanError m) =>
        { s with phase := .idle,
                 context := setError s.context (errMsg m "Scan failed") }
    | .scanning, .deviceDiscovered p =>
        { s with context :=
            { s.context with discoveredDevices :=
                addDiscoveredDevice s.context.discoveredDevices p } }
    | .scanning, .selectDevice deviceId deviceName =>
        { s with phase := .connectingStoppingPreviousScan,
                 context := setDeviceId s.context deviceId deviceName }
    | .scanning, .stopScanReq => s
    | .scanning, .scanReq =>
        { s with context := clearDiscoveredDevices s.context }
    | .connectingStoppingPreviousScan, .comp .stopScanDone =>
        { s with phase := .connectingConnectingToDevice }
    | .connectingStoppingPreviousScan, .comp (.stopScanError _) =>
        { s with phase := .connectingConnectingToDevice }
    | .connectingConnectingToDevice, .comp .connectDone =>
        { s with phase := .connectingSavingDeviceId }
    | .connectingConnectingToDevice, .comp (.connectError m) =>
        { s with phase := .idle,
                 context := setError (clearDeviceId s.context)
                   (errMsg m "Connection failed") }
    | .connectingSavingDeviceId, .comp .saveDone =>
        { s with phase := .connectedDiscoveringServices,
                 store := s.context.deviceId }
    | .connectingSavingDeviceId, .comp (.saveError _) =>
        { s with phase := .connectedDiscoveringServices }
    | .connectedDiscoveringServices, .comp (.discoverDone buttonState) =>
        { s with phase := .connectedReady,
                 context := setButtonState s.context buttonState }
    | .connectedDiscoveringServices, .comp (.discoverError m) =>
        { s with phase := .disconnecting,
                 context := setError s.context (errMsg m "Service discovery failed") }
    | .connectedDiscoveringServices, .disconnectReq =>
        { s with phase := .disconnecting }
    | .connectedReady, .buttonStateChanged v =>
        { s with context := setButtonState s.context v }
    | .connectedReady, .toggleLed =>
        { s with phase := .connectedTogglingLed,
                 context := toggleLedState s.context }
    | .connectedReady, .readButtonReq =>
        { s with phase := .connectedReadingButton }
    | .connectedReady, .disconnectReq =>
        { s with phase := .disconnecting }
    | .connectedTogglingLed, .comp .writeDone =>
        { s with phase := .connectedReady }
    | .connectedTogglingLed, .comp (.writeError m) =>
        { s with phase := .connectedReady,
                 context := setError (toggleLedState s.context)
                   (errMsg m "LED toggle failed") }
    | .connectedTogglingLed, .disconnectReq =>
        { s with phase := .disconnecting }
    | .connectedReadingButton, .comp (.readDone v) =>
        { s with phase := .connectedReady,
                 context := setButtonState s.context v }
    | .connectedReadingButton, .comp (.readError m) =>
        { s with phase := .connectedReady,
                 context := setError s.context (errMsg m "Read button failed") }
    | .connectedReadingButton, .disconnectReq =>
        { s with phase := .disconnecting }
    | .disconnecting, .comp .disconnectDone =>
        { s with phase := .idle,
                 context := resetForRetry (clearDeviceId s.context) }
    | .disconnecting, .comp (.disconnectError _) =>
        { s with phase := .idle,
                 context := resetForRetry (clearDeviceId s.context) }
    | _, _ => s

/-- Run the machine from the initial state over a list of events. -/
def run (es : List BleEvent) : MachState :=
  es.foldl step initialState

/-- The underlying `BleManager.disconnect` call, which may reject;
the boolean input selects the failing behaviour of the environment. -/
def bleManagerDisconnect (fails : Bool) : Except String Unit :=
  if fails then Except.error "disconnect error" else Except.ok ()

/-- The `disconnectFromDevice` actor: wraps `BleManager.disconnect`
in `try ... catch { /* ignore */ }`. -/
def disconnectFromDevice (fails : Bool) : Except String Unit :=
  match bleManagerDisconnect fails with
  | Except.ok _ => Except.ok ()
  | Except.error _ => Except.ok ()

/-- The completion the `disconnecting` node receives from the
`disconnectFromDevice` actor. -/
def disconnectCompletion (fails : Bool) : Completion :=
  match disconnectFromDevice fails with
  | Except.ok _ => Completion.disconnectDone
  | Except.error m => Completion.disconnectError (some m)

/-- Event trace driving the machine from start to `connected.ready`
via the remembered device `"X"`. -/
def toReadyTrace : List BleEvent :=
  [.start, .comp .checkBleDone, .comp (.loadStoredDone (some "X")),
   .comp .stopScanDone, .comp .connectDone, .comp .saveDone,
   .comp (.discoverDone false)]

/-- `toReadyTrace`, then a LED toggle whose write fails. -/
def ledFailTrace : List BleEvent :=
  toReadyTrace ++ [.toggleLed, .comp (.writeError (some "boom"))]

/-- `toReadyTrace`, then a failed toggle followed by a successful
toggle; the final event is a successful write completion. -/
def ledRetryTrace : List BleEvent :=
  toReadyTrace ++ [.toggleLed, .comp (.writeError (some "w1")),
   .toggleLed, .comp .writeDone]

/-- `toReadyTrace`, then a disconnect request and its completion. -/
def teardownTrace : List BleEvent :=
  toReadyTrace ++ [.disconnectReq, .comp .disconnectDone]

/-- Start with no remembered device, then the scan operation rejects. -/
def scanFailTrace : List BleEvent :=
  [.start, .comp .checkBleDone, .comp (.loadStoredDone none),
   .comp (.scanError (some "boom"))]

/-- Scan, select device `"A"`, connect and save succeed, then service
discovery fails and teardown completes. -/
def setupFailAfterSaveTrace : List BleEvent :=
  [.start, .comp .checkBleDone, .comp (.loadStoredDone none),
   .deviceDiscovered ⟨"A", none, 1⟩, .selectDevice "A" none,
   .comp .stopScanDone, .comp .connectDone, .comp .saveDone,
   .comp (.discoverError (some "LBS Service not found on device")),
   .comp .disconnectDone]

/-- Scan, discover `"A"`, select it, then the connect attempt fails. -/
def discoveredPersistTrace : List BleEvent :=
  [.start, .comp .checkBleDone, .comp (.loadStoredDone none),
   .deviceDiscovered ⟨"A", none, 1⟩, .selectDevice "A" none,
   .comp .stopScanDone, .comp (.connectError none)]

/-- Scan and receive the advertisement sequence
`[{id:A,rssi:1}, {id:B,rssi:2}, {id:A,rssi:3}]`. -/
def upsertTrace : List BleEvent :=
  [.start, .comp .checkBleDone, .comp (.loadStoredDone none),
   .deviceDiscovered ⟨"A", none, 1⟩, .deviceDiscovered ⟨"B", none, 2⟩,
   .deviceDiscovered ⟨"A", none, 3⟩]

/-- Start with the Device Store returning a remembered device id. -/
def fastPathTrace (deviceId : String) : List BleEvent :=
  [.start, .comp .checkBleDone, .comp (.loadStoredDone (some deviceId))]

/-- A machine state sitting in `init.loadingStoredDevice` with one
stale discovered device. -/
def staleDiscoveredState : MachState :=
  { phase := .initLoadingStoredDevice,
    context := { initialContext with discoveredDevices := [⟨"A", none, 1⟩] },
    store := none }

/-- A machine state sitting in the `disconnecting` node. -/
def disconnectingState : MachState :=
  { phase := .disconnecting,
    context := { initialContext with deviceId := some "X", buttonState := some true },
    store := some "X" }

/-- A machine state sitting in `connected.ready` with a device. -/
def readyState : MachState :=
  { phase := .connectedReady,
    context := { initialContext with deviceId := some "X", buttonState := some false },
    store := some "X" }

/-- A machine state sitting in `connected.togglingLed` (LED already
optimistically flipped on entry). -/
def togglingState : MachState :=
  { phase := .connectedTogglingLed,
    context := { initialContext with deviceId := some "X", ledState := true },
    store := some "X" }

/-- A machine state sitting in `scanning`. -/
def scanningState : MachState :=
  { phase := .scanning,
    context := { initialContext with discoveredDevices := [⟨"A", none, 1⟩] },
    store := none }

/-- A machine state sitting in `connecting.savingDeviceId`. -/
def savingState : MachState :=
  { phase := .connectingSavingDeviceId,
    context := { initialContext with deviceId := some "A" },
    store := none }

-- Outside the `scanning` node, a step either leaves
-- `discoveredDevices` unchanged or clears it (the only mutation of the
-- list, `addDiscoveredDevice`, is tied to `DEVICE_DISCOVERED` handled in
-- `scanning` only; entries into `scanning` run `clearDiscoveredDevices`).
set_option maxHeartbeats 1600000 in
theorem step_discovered_unchanged_or_cleared (s : MachState) (e : BleEvent)
    (h : s.phase ≠ Phase.scanning) :
    (step s e).context.discoveredDevices = s.context.discoveredDevices ∨
    (step s e).context.discoveredDevices = [] := by
  unfold step
  split
  · left; rfl
  · split <;> simp_all [clearError, setError, setDeviceId, clearDeviceId,
      setButtonState, toggleLedState, clearDiscoveredDevices, resetForRetry]

/-- Folding the step function over events that keep every intermediate
state out of `scanning` preserves an empty `discoveredDevices`. -/
theorem foldl_discovered_empty (es : List BleEvent) :
    ∀ s : MachState, s.context.discoveredDevices = [] →
      (∀ n, ((es.take n).foldl step s).phase ≠ Phase.scanning) →
      (es.foldl step s).context.discoveredDevices = [] := by
  induction es with
  | nil =>
    intro s h _
    simpa using h
  | cons e es ih =>
    intro s h hscan
    have h0 : s.phase ≠ Phase.scanning := by
      have := hscan 0
      simpa using this
    have h1 : (step s e).context.discoveredDevices = [] := by
      rcases step_discovered_unchanged_or_cleared s e h0 with h' | h'
      · rw [h']; exact h
      · exact h'
    have h2 : ∀ n, ((es.take n).foldl step (step s e)).phase ≠ Phase.scanning := by
      intro n
      have := hscan (n + 1)
      simpa [List.take_succ_cons] using this
    simpa using ih (step s e) h1 h2

/-- C6: `addDiscoveredDevice` replaces the stored record for an
already-seen id in place (the id sequence, hence every insertion
position, is unchanged) and appends unseen ids; on the advertisement
sequence `[{A,1},{B,2},{A,3}]` processed in `scanning`, the machine
holds exactly two entries and A's entry has rssi 3. -/
theorem upsertDiscoveredDevices :
    (∀ (devs : List Peripheral) (p : Peripheral),
        (addDiscoveredDevice devs p).map Peripheral.id =
          if devs.any (fun d => d.id == p.id) then devs.map Peripheral.id
          else devs.map Peripheral.id ++ [p.id]) ∧
    (run upsertTrace).phase = Phase.scanning ∧
    (run upsertTrace).context.discoveredDevices
      = [{ id := "A", name := none, rssi := 3 },
         { id := "B", name := none, rssi := 2 }] ∧
    (run upsertTrace).context.discoveredDevices.length = 2 := by
  refine ⟨?_, by decide, by decide, by decide⟩
  intro devs p
  unfold addDiscoveredDevice
  split
  · rw [List.map_map]
    apply List.map_congr_left
    intro d _
    by_cases hid : (d.id == p.id) = true
    · have hde : d.id = p.id := eq_of_beq hid
      simp [Function.comp, hid, hde]
    · simp [Function.comp, hid]
  · simp

/-- C7: a completion of an invoked async operation delivered while the
machine is no longer in the state node whose `invoke` started it
changes neither the phase nor the context (nor the store): invoked
actors are scoped to their node and stale completions are a no-op. -/
theorem staleCompletionNoop (s : MachState) (c : Completion)
    (h : c.origin ≠ s.phase) : step s (BleEvent.comp c) = s := by
  obtain ⟨p, ctx, st⟩ := s
  cases p <;> cases c <;> first
    | rfl
    | exact absurd rfl h

/-- Witness for C7: a scan failure delivered in `idle` is a no-op. -/
theorem staleCompletionNoop_witness :
    (Completion.scanError none).origin ≠ initialState.phase ∧
    step initialState (BleEvent.comp (Completion.scanError none)) = initialState :=
  ⟨by decide, staleCompletionNoop initialState (Completion.scanError none) (by decide)⟩

/-- C9: when the Device Store returns a remembered id, START drives the
machine `idle → init → connecting` (leaf nodes `idle`,
`init.checkingBle`, `init.loadingStoredDevice`,
`connecting.stoppingPreviousScan`), the machine never enters
`scanning`, `discoveredDevices` stays empty at every prefix, and
`deviceId` is set from the store. -/
theorem rememberedDeviceFastPath (deviceId : String) :
    ((List.range 4).map fun n => (run ((fastPathTrace deviceId).take n)).phase)
      = [Phase.idle, Phase.initCheckingBle, Phase.initLoadingStoredDevice,
         Phase.connectingStoppingPreviousScan] ∧
    ((List.range 4).map fun n => (run ((fastPathTrace deviceId).take n)).phase.outer)
      = ["idle", "init", "init", "connecting"] ∧
    ((List.range 4).map fun n =>
        (run ((fastPathTrace deviceId).take n)).context.discoveredDevices)
      = [[], [], [], []] ∧
    (run (fastPathTrace deviceId)).context.deviceId = some deviceId :=
  ⟨rfl, rfl, rfl, rfl⟩

/-- C10: `disconnectFromDevice` swallows every error of the underlying
disconnect call and never rejects, so the `disconnecting` node always
receives the done completion; moreover the error branch, were it ever
taken, leads to exactly the same cleared `idle` state, so disconnecting
an already-disconnected device ends in the same target state. -/
theorem disconnectActorNeverRejects :
    (∀ fails, disconnectFromDevice fails = Except.ok ()) ∧
    (∀ fails, disconnectCompletion fails = Completion.disconnectDone) ∧
    (∀ s m, s.phase = Phase.disconnecting →
        step s (BleEvent.comp (Completion.disconnectError m))
          = step s (BleEvent.comp Completion.disconnectDone) ∧
        (step s (BleEvent.comp Completion.disconnectDone)).phase = Phase.idle ∧
        (step s (BleEvent.comp Completion.disconnectDone)).context.deviceId = none ∧
        (step s (BleEvent.comp Completion.disconnectDone)).context.deviceName = none ∧
        (step s (BleEvent.comp Completion.disconnectDone)).context.buttonState = none) := by
  refine ⟨fun fails => by cases fails <;> rfl,
    fun fails => by cases fails <;> rfl, ?_⟩
  intro s m h
  obtain ⟨p, ctx, st⟩ := s
  cases p <;> simp_all [step, resetForRetry, clearDeviceId]

/-- Witness for C10 at a concrete `disconnecting` state. -/
theorem disconnectActorNeverRejects_witness :
    disconnectingState.phase = Phase.disconnecting ∧
    (step disconnectingState (BleEvent.comp Completion.disconnectDone)).phase
      = Phase.idle :=
  ⟨rfl, (disconnectActorNeverRejects.2.2 disconnectingState none rfl).2.1⟩

/-- C1 counterexample: a LED write failure in `connected.togglingLed`
does _not_ go to `init` and does _not_ clear `deviceId`: the run ends
in `connected.ready` with the device still selected (the LED value is
reverted and the error is set, as claimed). -/
theorem ledWriteFailureClaimFalse :
    (run ledFailTrace).phase = Phase.connectedReady ∧
    (run ledFailTrace).phase.outer = "connected" ∧
    (run ledFailTrace).phase.outer ≠ "init" ∧
    (run ledFailTrace).context.deviceId = some "X" ∧
    (run ledFailTrace).context.ledState = false ∧
    (run ledFailTrace).context.error = some "boom" := by decide

-- Toggling from `connected.ready` and failing the write restores the
-- pre-toggle LED value (entry flips once, the error action flips back).
theorem ledToggleRevert (r : MachState) (m : Option String)
    (hr : r.phase = Phase.connectedReady) :
    (step (step r BleEvent.toggleLed)
        (BleEvent.comp (Completion.writeError m))).context.ledState
      = r.context.ledState := by
  obtain ⟨p, ctx, st⟩ := r
  cases p <;> simp_all [step, toggleLedState, setError]

/-- C1 (amended): when the LED write invoked in `connected.togglingLed`
fails, the machine transitions back to `connected.ready` (not `init`),
reverts `ledState`, keeps `deviceId`/`deviceName`, and sets `error`
from the failure message (default "LED toggle failed"); the full
toggle round trip from `connected.ready` restores the original
`ledState`. -/
theorem ledWriteFailureStaysConnectedAndReverts (s : MachState) (m : Option String)
    (h : s.phase = Phase.connectedTogglingLed) :
    (step s (BleEvent.comp (Completion.writeError m))).phase = Phase.connectedReady ∧
    (step s (BleEvent.comp (Completion.writeError m))).context.ledState
      = !s.context.ledState ∧
    (step s (BleEvent.comp (Completion.writeError m))).context.deviceId
      = s.context.deviceId ∧
    (step s (BleEvent.comp (Completion.writeError m))).context.deviceName
      = s.context.deviceName ∧
    (step s (BleEvent.comp (Completion.writeError m))).context.error
      = some (errMsg m "LED toggle failed") ∧
    (step s (BleEvent.comp (Completion.writeError m))).store = s.store ∧
    ∀ r : MachState, r.phase = Phase.connectedReady →
      (step (step r BleEvent.toggleLed)
          (BleEvent.comp (Completion.writeError m))).context.ledState
        = r.context.ledState := by
  refine ⟨?_, ?_, ?_, ?_, ?_, ?_, fun r hr => ledToggleRevert r m hr⟩ <;>
    (obtain ⟨p, ctx, st⟩ := s; cases p <;> simp_all [step, toggleLedState, setError])

/-- Witness for C1 (amended) at a concrete `connected.togglingLed`
state. -/
theorem ledWriteFailureStaysConnectedAndReverts_witness :
    togglingState.phase = Phase.connectedTogglingLed ∧
    (step togglingState (BleEvent.comp (Completion.writeError none))).phase
      = Phase.connectedReady :=
  ⟨rfl, (ledWriteFailureStaysConnectedAndReverts togglingState none rfl).1⟩

/-- C2 counterexample: when the scan operation invoked in `scanning`
rejects, the machine transitions to `idle`, not to `init` (the error
is set, as claimed). -/
theorem scanFailureClaimFalse :
    (run scanFailTrace.dropLast).phase = Phase.scanning ∧
    (run scanFailTrace).phase = Phase.idle ∧
    (run scanFailTrace).phase.outer ≠ "init" ∧
    (run scanFailTrace).context.error = some "boom" := by decide

/-- C2 (amended): a scan rejection in `scanning` transitions the
machine to `idle` (the START entry point, not the `init` checking
state) and sets `error` from the failure message (default
"Scan failed"); the rest of the context and the store are unchanged. -/
theorem scanFailureGoesIdle (s : MachState) (m : Option String)
    (h : s.phase = Phase.scanning) :
    (step s (BleEvent.comp (Completion.scanError m))).phase = Phase.idle ∧
    (step s (BleEvent.comp (Completion.scanError m))).context.error
      = some (errMsg m "Scan failed") ∧
    (step s (BleEvent.comp (Completion.scanError m))).context.deviceId
      = s.context.deviceId ∧
    (step s (BleEvent.comp (Completion.scanError m))).context.discoveredDevices
      = s.context.discoveredDevices ∧
    (step s (BleEvent.comp (Completion.scanError m))).store = s.store := by
  obtain ⟨p, ctx, st⟩ := s
  cases p <;> simp_all [step, setError]

/-- Witness for C2 (amended) at a concrete `scanning` state. -/
theorem scanFailureGoesIdle_witness :
    scanningState.phase = Phase.scanning ∧
    (step scanningState (BleEvent.comp (Completion.scanError none))).phase
      = Phase.idle :=
  ⟨rfl, (scanFailureGoesIdle scanningState none rfl).1⟩

/-- C3 counterexample: after a disconnect from `connected.ready` and
teardown completion the machine is in `idle`, not `init` (deviceId,
deviceName and buttonState are cleared, as claimed). -/
theorem disconnectTargetClaimFalse :
    (run teardownTrace).phase = Phase.idle ∧
    (run teardownTrace).phase.outer ≠ "init" ∧
    (run teardownTrace).context.deviceId = none ∧
    (run teardownTrace).context.deviceName = none ∧
    (run teardownTrace).context.buttonState = none := by decide

/-- C3 (amended): from every `connected.*` sub-state a DISCONNECT
request (user-initiated or bridged from an unsolicited disconnect)
enters `disconnecting`, and teardown completion — success or failure —
ends in `idle` (not `init`) with `deviceId`, `deviceName`,
`buttonState` (and `error`) cleared. -/
theorem disconnectAlwaysClearsToIdle (s : MachState)
    (h : s.phase.isConnectedSub = true) :
    (step s BleEvent.disconnectReq).phase = Phase.disconnecting ∧
    ∀ (s' : MachState) (c : Completion), s'.phase = Phase.disconnecting →
      (c = Completion.disconnectDone ∨ ∃ m, c = Completion.disconnectError m) →
      (step s' (BleEvent.comp c)).phase = Phase.idle ∧
      (step s' (BleEvent.comp c)).context.deviceId = none ∧
      (step s' (BleEvent.comp c)).context.deviceName = none ∧
      (step s' (BleEvent.comp c)).context.buttonState = none ∧
      (step s' (BleEvent.comp c)).context.error = none := by
  constructor
  · obtain ⟨p, ctx, st⟩ := s
    cases p <;> simp_all [step, Phase.isConnectedSub]
  · intro s' c h' hc
    obtain ⟨p, ctx, st⟩ := s'
    rcases hc with rfl | ⟨m, rfl⟩ <;>
      cases p <;> simp_all [step, resetForRetry, clearDeviceId]

/-- Witness for C3 (amended) at a concrete `connected.ready` state. -/
theorem disconnectAlwaysClearsToIdle_witness :
    readyState.phase.isConnectedSub = true ∧
    (step readyState BleEvent.disconnectReq).phase = Phase.disconnecting :=
  ⟨rfl, (disconnectAlwaysClearsToIdle readyState rfl).1⟩

/-- C4 counterexample: a run that enters `connected.ready` through a
successful LED write (forward progress) still carries the error left
by an earlier failed write — entering `connected.ready` does not imply
`error = none`. -/
theorem readyEntryErrorClaimFalse :
    (run ledRetryTrace.dropLast).phase = Phase.connectedTogglingLed ∧
    ledRetryTrace.getLast? = some (BleEvent.comp Completion.writeDone) ∧
    (run ledRetryTrace).phase = Phase.connectedReady ∧
    (run ledRetryTrace).context.error = some "w1" := by decide

/-- C4 (amended): forward-progress entries into `connected.ready`
(successful setup, successful write, successful read) leave `error`
exactly as it was — they never clear it; a step yields `error = none`
only if it already was `none`, or via START from `idle`
(`clearError`), or while completing teardown from `disconnecting`
(`resetForRetry`). -/
theorem errorNotClearedOnForwardProgress :
    (∀ (s : MachState) (b : Bool),
        (step s (BleEvent.comp (Completion.discoverDone b))).context.error
          = s.context.error) ∧
    (∀ s : MachState,
        (step s (BleEvent.comp Completion.writeDone)).context.error
          = s.context.error) ∧
    (∀ (s : MachState) (v : Bool),
        (step s (BleEvent.comp (Completion.readDone v))).context.error
          = s.context.error) ∧
    (∀ (s : MachState) (e : BleEvent),
        (step s e).context.error = none →
        s.context.error = none ∨ (s.phase = Phase.idle ∧ e = BleEvent.start) ∨
        s.phase = Phase.disconnecting) := by
  refine ⟨?_, ?_, ?_, ?_⟩
  · intro s b
    obtain ⟨p, ctx, st⟩ := s
    cases p <;> rfl
  · intro s
    obtain ⟨p, ctx, st⟩ := s
    cases p <;> rfl
  · intro s v
    obtain ⟨p, ctx, st⟩ := s
    cases p <;> rfl
  · intro s e h
    unfold step at h
    split at h
    · left; simpa [clearDeviceId] using h
    · split at h <;>
        simp_all [clearError, setError, setDeviceId, clearDeviceId,
          setButtonState, toggleLedState, clearDiscoveredDevices, resetForRetry]

/-- Witness for C4 (amended): the error-clearing characterization
applied to the START transition out of the initial state. -/
theorem errorNotClearedOnForwardProgress_witness :
    (step initialState BleEvent.start).context.error = none ∧
    (initialState.context.error = none ∨
      (initialState.phase = Phase.idle ∧ BleEvent.start = BleEvent.start) ∨
      initialState.phase = Phase.disconnecting) :=
  ⟨by decide,
    errorNotClearedOnForwardProgress.2.2.2 initialState BleEvent.start (by decide)⟩

/-- C5 counterexample: the Device Store is written as soon as the
connect step succeeds: in a run whose service discovery fails (the
machine never reaches `connected.ready`, so connect+setup never
succeeded) the store nevertheless holds the device id at the end. -/
theorem storeWriteClaimFalse :
    ((List.range (setupFailAfterSaveTrace.length + 1)).map fun n =>
        (run (setupFailAfterSaveTrace.take n)).phase)
      = [Phase.idle, Phase.initCheckingBle, Phase.initLoadingStoredDevice,
         Phase.scanning, Phase.scanning, Phase.connectingStoppingPreviousScan,
         Phase.connectingConnectingToDevice, Phase.connectingSavingDeviceId,
         Phase.connectedDiscoveringServices, Phase.disconnecting, Phase.idle] ∧
    Phase.connectedReady ∉
      ((List.range (setupFailAfterSaveTrace.length + 1)).map fun n =>
        (run (setupFailAfterSaveTrace.take n)).phase) ∧
    (run setupFailAfterSaveTrace).store = some "A" := by decide

/-- C5 (amended): the Device Store is written exactly by the
`saveDeviceId` completion in `connecting.savingDeviceId` — i.e. after
connect succeeds but _before_ service discovery, verification,
subscription and the initial read — and cleared exactly by the
explicit CLEAR_STORED_DEVICE request; disconnect requests and teardown
completions never touch it. -/
theorem storeWrittenAfterConnectBeforeSetup :
    (∀ (s : MachState) (e : BleEvent), (step s e).store ≠ s.store →
        (s.phase = Phase.connectingSavingDeviceId ∧
          e = BleEvent.comp Completion.saveDone) ∨
        e = BleEvent.clearStoredDevice) ∧
    (∀ s : MachState, s.phase = Phase.connectingSavingDeviceId →
        (step s (BleEvent.comp Completion.saveDone)).store = s.context.deviceId ∧
        (step s (BleEvent.comp Completion.saveDone)).phase
          = Phase.connectedDiscoveringServices) ∧
    (∀ s : MachState, (step s BleEvent.clearStoredDevice).store = none) ∧
    (∀ (s : MachState) (m : Option String),
        (step s BleEvent.disconnectReq).store = s.store ∧
        (step s (BleEvent.comp Completion.disconnectDone)).store = s.store ∧
        (step s (BleEvent.comp (Completion.disconnectError m))).store = s.store) := by
  refine ⟨?_, ?_, fun s => rfl, ?_⟩
  · intro s e h
    unfold step at h
    split at h
    · right; rfl
    · split at h <;> simp_all
  · intro s h
    obtain ⟨p, ctx, st⟩ := s
    cases p <;> simp_all [step]
  · intro s m
    obtain ⟨p, ctx, st⟩ := s
    refine ⟨?_, ?_, ?_⟩ <;> cases p <;> rfl

/-- Witness for C5 (amended) at a concrete `connecting.savingDeviceId`
state. -/
theorem storeWrittenAfterConnectBeforeSetup_witness :
    savingState.phase = Phase.connectingSavingDeviceId ∧
    (step savingState (BleEvent.comp Completion.saveDone)).store = some "A" :=
  ⟨rfl, (storeWrittenAfterConnectBeforeSetup.2.1 savingState rfl).1⟩

/-- C8 counterexample: `discoveredDevices` survives far past the
scanning phase — after a failed connect attempt the machine sits in
`idle` (the previous state was `connecting.connectingToDevice`, not
`scanning`) and the list is still non-empty. -/
theorem discoveredDevicesPersistClaimFalse :
    (run discoveredPersistTrace).phase = Phase.idle ∧
    (run discoveredPersistTrace.dropLast).phase
      = Phase.connectingConnectingToDevice ∧
    (run discoveredPersistTrace).context.discoveredDevices
      = [{ id := "A", name := none, rssi := 1 }] := by decide

/-- C8 (amended): every entry into `scanning` — from `init` or a
re-entering SCAN request — clears `discoveredDevices`; outside
`scanning` the list never grows (it is unchanged or cleared); and a
run that never passes through `scanning` keeps it empty.  The list is
_not_ cleared on leaving `scanning`: it persists into later phases
until the next scan entry. -/
theorem scanningClearsDiscoveredDevices :
    (∀ (s : MachState) (e : BleEvent),
        (step s e).phase = Phase.scanning →
        (s.phase ≠ Phase.scanning ∨ e = BleEvent.scanReq) →
        (step s e).context.discoveredDevices = []) ∧
    (∀ (s : MachState) (e : BleEvent), s.phase ≠ Phase.scanning →
        (step s e).context.discoveredDevices = s.context.discoveredDevices ∨
        (step s e).context.discoveredDevices = []) ∧
    (∀ es : List BleEvent,
        (∀ n, (run (es.take n)).phase ≠ Phase.scanning) →
        (run es).context.discoveredDevices = []) := by
  refine ⟨?_, fun s e h => step_discovered_unchanged_or_cleared s e h, ?_⟩
  · intro s e h1 h2
    unfold step at h1 ⊢
    split at h1
    · simp_all
    · split at h1 <;>
        simp_all [clearError, setError, setDeviceId, clearDeviceId,
          setButtonState, toggleLedState, clearDiscoveredDevices, resetForRetry]
  · intro es hscan
    exact foldl_discovered_empty es initialState rfl hscan

/-- Witness for C8 (amended): entering `scanning` from
`init.loadingStoredDevice` clears a stale discovered-device list. -/
theorem scanningClearsDiscoveredDevices_witness :
    ((step staleDiscoveredState
        (BleEvent.comp (Completion.loadStoredDone none))).phase = Phase.scanning ∧
      (staleDiscoveredState.phase ≠ Phase.scanning ∨
        BleEvent.comp (Completion.loadStoredDone none) = BleEvent.scanReq)) ∧
    (step staleDiscoveredState
        (BleEvent.comp (Completion.loadStoredDone none))).context.discoveredDevices
      = [] :=
  ⟨⟨by decide, Or.inl (by decide)⟩,
    scanningClearsDiscoveredDevices.1 staleDiscoveredState
      (BleEvent.comp (Completion.loadStoredDone none)) (by decide)
      (Or.inl (by decide))⟩

end BleDemo
